import Mathlib

/-!
Shallow embedding of packages/common/src/TruffleConfig.js.

The file under verification is a configuration-assembly script: it resolves
credentials from environment variables with hardcoded fallbacks, registers
public and local networks in a mutable registry object, and returns a
configuration record for the external deploy tool.

Modelling conventions:
- the process environment is a partial map from variable names to strings
  (process.env values are always strings in Node.js);
- JavaScript objects that serve as network entries are partial maps from
  property names to JSValue; a key bound to JSValue.undef models a property
  that is present with value undefined (as produced by spreading an object
  literal that lists the key with an undefined value), while an absent key
  is modelled by none;
- provider factory closures are modelled by dedicated JSValue constructors
  recording which credential mechanism (and, for ledger wallets, which
  network id) the closure captured; their run-time behaviour against the
  shared singleton slot is modelled separately by invokeFactory;
- constructed provider objects are modelled by the Provider inductive,
  recording the constructor called and the arguments the script passes to
  it; external collaborator constants that never vary (the GckmsConfig
  object handed verbatim to ManagedSecretProvider) are not expanded.
-/

namespace TruffleConfig

/-- The process environment: a partial map from variable names to string
values. Node.js exposes every defined variable as a string. -/
abbrev Env : Type := String → Option String

/-- The empty environment: no variable set. -/
def emptyEnv : Env := fun _ => none

/-- JavaScript truthiness test on an environment variable, as used by the
conditional expressions of the script: a variable that is unset, or set to
the empty string (the only falsy string), yields none; otherwise the value. -/
def envFlag (env : Env) (key : String) : Option String :=
  match env key with
  | some v => if v = "" then none else some v
  | none => none

/-- Values stored in the network-entry objects. The function constructors
stand for the provider factory closures created by addPublicNetwork and for
the MetaMask factory; each records the data the closure captured. -/
inductive JSValue : Type where
  | undef : JSValue
  | str : String → JSValue
  | num : Int → JSValue
  | fnGckms : JSValue
  | fnPrivatekey : JSValue
  | fnMnemonic : JSValue
  | fnLedger : JSValue → JSValue
  | fnLedgerLegacy : JSValue → JSValue
  | fnMetamask : JSValue
deriving DecidableEq

/-- A JavaScript object, as a partial map from property names to values. -/
abbrev JSObj : Type := String → Option JSValue

/-- The object with no own properties (also the result of spreading an
undefined customOptions argument). -/
def emptyObj : JSObj := fun _ => none

/-- Property assignment: o[key] = v. -/
def setProp (o : JSObj) (key : String) (v : JSValue) : JSObj :=
  fun k => if k = key then some v else o k

/-- The spread merge of two object literals: every own key of the second
object wins over the first, including keys bound to undefined. -/
def spreadMerge (a b : JSObj) : JSObj :=
  fun k =>
    match b k with
    | some v => some v
    | none => a k

/-- The mutable networks registry: a partial map from network names to
network-entry objects. -/
abbrev Networks : Type := String → Option JSObj

/-- The empty registry, modelling the initial object literal. -/
def emptyNetworks : Networks := fun _ => none

/-- Fallback mnemonic used when MNEMONIC is unset or empty. -/
def fallbackMnemonic : String :=
  "candy maple cake sugar pudding cream honey rich smooth crumble sweet treat"

/-- Fallback private key used when PRIVATE_KEY is unset or empty. -/
def fallbackPrivateKey : String :=
  "0x348ce564d427a3311b6536bbcff9390d69395b06ed6c486954e971d960fe8709"

/-- Fallback Infura API key used when INFURA_API_KEY is unset or empty. -/
def fallbackInfuraApiKey : String := "e34138b2db5b496ab5cc52319d2f0299"

/-- const mnemonic = process.env.MNEMONIC ? process.env.MNEMONIC : fallback. -/
def mnemonic (env : Env) : String :=
  match envFlag env "MNEMONIC" with
  | some v => v
  | none => fallbackMnemonic

/-- const privateKey = process.env.PRIVATE_KEY ? process.env.PRIVATE_KEY : fallback. -/
def privateKey (env : Env) : String :=
  match envFlag env "PRIVATE_KEY" with
  | some v => v
  | none => fallbackPrivateKey

/-- const infuraApiKey = process.env.INFURA_API_KEY ? ... : fallback. -/
def infuraApiKey (env : Env) : String :=
  match envFlag env "INFURA_API_KEY" with
  | some v => v
  | none => fallbackInfuraApiKey

/-- const customNodeUrl = process.env.CUSTOM_NODE_URL (no truthiness test at
the binding itself; the || test happens where nodeUrl is computed). -/
def customNodeUrl (env : Env) : Option String := env "CUSTOM_NODE_URL"

/-- Decimal digit value for the JavaScript parseInt model. -/
def decDigit (c : Char) : Option Nat :=
  if c.isDigit then some (c.toNat - 48) else none

/-- Hexadecimal digit value for the JavaScript parseInt model. -/
def hexDigit (c : Char) : Option Nat :=
  if c.isDigit then some (c.toNat - 48)
  else if ('a' ≤ c ∧ c ≤ 'f') then some (c.toNat - 87)
  else if ('A' ≤ c ∧ c ≤ 'F') then some (c.toNat - 55)
  else none

/-- Accumulate the longest prefix of digits; none when no digit was read,
matching the NaN result of parseInt on a digitless input. -/
def parsePrefixDigits (digit : Char → Option Nat) (radix : Nat) :
    List Char → Option Nat → Option Nat
  | [], acc => acc
  | c :: cs, acc =>
    match digit c with
    | some d => parsePrefixDigits digit radix cs (some ((acc.getD 0) * radix + d))
    | none => acc

/-- Model of JavaScript parseInt(string) with no radix argument: skip
leading whitespace, read an optional sign, switch to base 16 after a 0x or
0X prefix, then take the longest digit prefix; the result is none for NaN. -/
def jsParseInt (s : String) : Option Int :=
  let cs := s.data.dropWhile Char.isWhitespace
  let signAndRest : Int × List Char :=
    match cs with
    | c :: rest =>
      if c = '-' then (-1, rest)
      else if c = '+' then (1, rest) else (1, cs)
    | [] => (1, [])
  let body : Nat × List Char :=
    match signAndRest.2 with
    | '0' :: x :: rest =>
      if x = 'x' ∨ x = 'X' then (16, rest) else (10, signAndRest.2)
    | _ => (10, signAndRest.2)
  let digit := if body.1 = 16 then hexDigit else decDigit
  (parsePrefixDigits digit body.1 body.2 none).map (fun n => signAndRest.1 * (n : Int))

/-- const keyOffset = process.env.KEY_OFFSET ? parseInt(process.env.KEY_OFFSET) : 0.
none models NaN. -/
def keyOffset (env : Env) : Option Int :=
  match envFlag env "KEY_OFFSET" with
  | some v => jsParseInt v
  | none => some 0

/-- const numKeys = process.env.NUM_KEYS ? parseInt(process.env.NUM_KEYS) : 2. -/
def numKeys (env : Env) : Option Int :=
  match envFlag env "NUM_KEYS" with
  | some v => jsParseInt v
  | none => some 2

/-- const gasPx = 20000000000 (20 gwei). -/
def gasPx : Int := 20000000000

/-- const gas = undefined: the key is present with an undefined value, which
forces the external tool to estimate gas. -/
def gas : JSValue := JSValue.undef

/-- Identifiers bound in the module scope of TruffleConfig.js: the required
bindings, the module-level consts, let-bindings and function declarations. -/
def moduleScopeIdents : List String :=
  ["path", "HDWalletProvider", "LedgerWalletProvider", "GckmsConfig",
   "ManagedSecretProvider", "PublicNetworks", "MetaMaskTruffleProvider",
   "mnemonic", "privateKey", "infuraApiKey", "customNodeUrl", "keyOffset",
   "numKeys", "singletonProvider", "gasPx", "gas", "nodeUrl",
   "addPublicNetwork", "addLocalNetwork", "networks", "getTruffleConfig"]

/-- Identifiers Node.js binds in the scope chain of a CommonJS module: the
module-wrapper parameters and the properties of the Node.js global object.
Node.js defines no global binding named name (that binding exists only in
browsers, as a window property). -/
def nodeGlobalIdents : List String :=
  ["global", "globalThis", "process", "Buffer", "console", "require",
   "module", "exports", "__filename", "__dirname", "setTimeout",
   "setInterval", "setImmediate", "clearTimeout", "clearInterval",
   "clearImmediate", "queueMicrotask", "URL", "URLSearchParams",
   "TextEncoder", "TextDecoder", "WebAssembly", "performance",
   "structuredClone", "fetch", "undefined", "NaN", "Infinity", "parseInt",
   "parseFloat", "isNaN", "isFinite", "Object", "Function", "Array",
   "Number", "Boolean", "String", "Symbol", "Date", "Promise", "RegExp",
   "Error", "EvalError", "RangeError", "ReferenceError", "SyntaxError",
   "TypeError", "URIError", "JSON", "Math", "Reflect", "Proxy", "Map",
   "Set", "WeakMap", "WeakSet", "ArrayBuffer", "SharedArrayBuffer",
   "DataView", "BigInt", "eval", "decodeURI", "decodeURIComponent",
   "encodeURI", "encodeURIComponent", "escape", "unescape", "AbortController",
   "AbortSignal", "Event", "EventTarget", "MessageChannel", "MessageEvent",
   "MessagePort", "TextDecoderStream", "TextEncoderStream", "atob", "btoa"]

/-- Errors the embedded script can throw while evaluating. -/
inductive JsError : Type where
  | referenceError : String → JsError
deriving DecidableEq

/-- Reading a bare identifier: a ReferenceError is thrown when the
identifier is bound neither in the module scope chain nor on the global
object. Only the success or failure of the lookup matters here. -/
def lookupBareIdent (ident : String) : Except JsError Unit :=
  if moduleScopeIdents.contains ident || nodeGlobalIdents.contains ident then
    Except.ok ()
  else
    Except.error (JsError.referenceError ident)

/-- const nodeUrl = customNodeUrl || template. The || operator applies the
same truthiness test as the conditionals (empty string is falsy). The
template literal interpolates the bare identifier name, which is unbound,
so its evaluation throws; the ok branch after the lookup is unreachable and
its interpolated segment is left empty. -/
def nodeUrl (env : Env) : Except JsError String :=
  match envFlag env "CUSTOM_NODE_URL" with
  | some u => Except.ok u
  | none =>
    match lookupBareIdent "name" with
    | Except.ok _ =>
      Except.ok ("wss://" ++ "" ++ ".infura.io/ws/v3/" ++ infuraApiKey env)
    | Except.error e => Except.error e

/-- A constructed credential provider. Each constructor records which
collaborator class the factory closure instantiated and the arguments the
script passes; option-typed numbers use none for NaN, and the ledger path
field uses none when the options object carries no path key. The
ManagedSecretProvider call also receives the external GckmsConfig object,
the offset 0 and the length of that object; the config object is an opaque
external constant and is not expanded here. -/
inductive Provider : Type where
  | managedSecret : String → Provider
  | hdWalletKeys : List String → String → Provider
  | hdWalletMnemonic : String → String → Option Int → Option Int → Provider
  | ledgerWallet : JSValue → Option Int → Option Int → Option String →
      String → Provider
  | metaMaskProvider : Provider
deriving DecidableEq

/-- The explicit modern ledger derivation path set in ledgerOptions. -/
def ledgerPath : String := "44\x27/60\x27/0\x27/0/0"

/-- Whether a JSValue is one of the provider factory closures. -/
def isFactoryFn : JSValue → Bool
  | JSValue.fnGckms => true
  | JSValue.fnPrivatekey => true
  | JSValue.fnMnemonic => true
  | JSValue.fnLedger _ => true
  | JSValue.fnLedgerLegacy _ => true
  | JSValue.fnMetamask => true
  | _ => false

/-- The provider object a factory closure constructs when the singleton
slot is empty, with the endpoint argument the external tool passed (the
closure parameter provider, defaulting to nodeUrl). none for values that
are not factory closures. -/
def mkProvider (env : Env) (f : JSValue) (endpoint : String) : Option Provider :=
  match f with
  | JSValue.fnGckms => some (Provider.managedSecret endpoint)
  | JSValue.fnPrivatekey => some (Provider.hdWalletKeys [privateKey env] endpoint)
  | JSValue.fnMnemonic =>
    some (Provider.hdWalletMnemonic (mnemonic env) endpoint (keyOffset env) (numKeys env))
  | JSValue.fnLedger nid =>
    some (Provider.ledgerWallet nid (numKeys env) (keyOffset env) (some ledgerPath) endpoint)
  | JSValue.fnLedgerLegacy nid =>
    some (Provider.ledgerWallet nid (numKeys env) (keyOffset env) none endpoint)
  | JSValue.fnMetamask => some Provider.metaMaskProvider
  | _ => none

/-- One invocation of a factory closure against the shared singleton slot:
if the slot already holds a provider it is returned unchanged and nothing
is constructed; otherwise the mechanism-specific provider is constructed,
stored in the slot and returned. none models the TypeError of calling a
non-function value. -/
def invokeFactory (env : Env) (f : JSValue) (endpoint : String)
    (slot : Option Provider) : Option (Provider × Option Provider) :=
  match slot with
  | some p => if isFactoryFn f then some (p, some p) else none
  | none => (mkProvider env f endpoint).map (fun p => (p, some p))

/-- The shared base options object of addPublicNetwork. -/
def publicBaseOptions (networkId : JSValue) : JSObj :=
  fun k =>
    if k = "networkCheckTimeout" then some (JSValue.num 10000)
    else if k = "network_id" then some networkId
    else if k = "gas" then some gas
    else if k = "gasPrice" then some (JSValue.num gasPx)
    else none

/-- Spread of the base options followed by the provider property. -/
def withProvider (base : JSObj) (f : JSValue) : JSObj :=
  fun k => if k = "provider" then some f else base k

/-- addPublicNetwork(networks, name, networkId): assigns five suffixed keys,
each bound to the shared base options extended with a mechanism-specific
provider factory; both ledger factories capture the networkId in their
options objects. -/
def addPublicNetwork (networks : Networks) (nm : String) (networkId : JSValue) :
    Networks :=
  let options := publicBaseOptions networkId
  fun k =>
    if k = nm ++ "_gckms" then some (withProvider options JSValue.fnGckms)
    else if k = nm ++ "_privatekey" then some (withProvider options JSValue.fnPrivatekey)
    else if k = nm ++ "_mnemonic" then some (withProvider options JSValue.fnMnemonic)
    else if k = nm ++ "_ledger" then some (withProvider options (JSValue.fnLedger networkId))
    else if k = nm ++ "_ledger_legacy" then
      some (withProvider options (JSValue.fnLedgerLegacy networkId))
    else networks k

/-- The defaultOptions object of addLocalNetwork. -/
def localDefaultOptions : JSObj :=
  fun k =>
    if k = "host" then some (JSValue.str "127.0.0.1")
    else if k = "network_id" then some (JSValue.str "*")
    else if k = "port" then some (JSValue.num 9545)
    else if k = "gas" then some gas
    else none

/-- The entry addLocalNetwork stores: spread of the defaults and the caller
customOptions, then the host and port assignments guarded by the presence
(the in operator, not truthiness) of LOCALHOST and LOCALPORT; the assigned
values are the raw environment strings. -/
def localEntry (env : Env) (customOptions : JSObj) : JSObj :=
  let merged := spreadMerge localDefaultOptions customOptions
  let withHost :=
    match env "LOCALHOST" with
    | some v => setProp merged "host" (JSValue.str v)
    | none => merged
  match env "LOCALPORT" with
  | some v => setProp withHost "port" (JSValue.str v)
  | none => withHost

/-- addLocalNetwork(networks, name, customOptions). -/
def addLocalNetwork (env : Env) (networks : Networks) (nm : String)
    (customOptions : JSObj) : Networks :=
  fun k => if k = nm then some (localEntry env customOptions) else networks k

/-- The customOptions for the ci network. -/
def ciOptions : JSObj :=
  fun k =>
    if k = "port" then some (JSValue.num 8545)
    else if k = "network_id" then some (JSValue.num 1234)
    else none

/-- The customOptions for the coverage network. -/
def coverageOptions : JSObj :=
  fun k =>
    if k = "port" then some (JSValue.num 8545)
    else if k = "network_id" then some (JSValue.num 1234)
    else none

/-- The customOptions for the metamask network: an extended check timeout
and a provider factory constructing the MetaMaskTruffleProvider. -/
def metamaskOptions : JSObj :=
  fun k =>
    if k = "networkCheckTimeout" then some (JSValue.num 500000)
    else if k = "provider" then some JSValue.fnMetamask
    else none

/-- The customOptions for the mainnet-fork network. -/
def mainnetForkOptions : JSObj :=
  fun k =>
    if k = "port" then some (JSValue.num 1235)
    else if k = "network_id" then some (JSValue.num 1)
    else none

/-- The module-level registration sequence: one addPublicNetwork call per
entry of the external PublicNetworks table (an id-to-name table whose
Object.entries keys are strings), then the six addLocalNetwork calls. The
develop and test calls omit customOptions, which spreads no keys. -/
def registerNetworks (publicNets : List (String × String)) (env : Env) : Networks :=
  let n0 := publicNets.foldl
    (fun acc p => addPublicNetwork acc p.2 (JSValue.str p.1)) emptyNetworks
  let n1 := addLocalNetwork env n0 "ci" ciOptions
  let n2 := addLocalNetwork env n1 "develop" emptyObj
  let n3 := addLocalNetwork env n2 "test" emptyObj
  let n4 := addLocalNetwork env n3 "coverage" coverageOptions
  let n5 := addLocalNetwork env n4 "metamask" metamaskOptions
  addLocalNetwork env n5 "mainnet-fork" mainnetForkOptions

/-- Property lookup through the registry. -/
def netProp (networks : Networks) (nm key : String) : Option JSValue :=
  match networks nm with
  | some e => e key
  | none => none

/-- Split a character list on the / separator, keeping empty segments. -/
def splitOnSlash : List Char → List (List Char)
  | [] => [[]]
  | c :: cs =>
    if c = '/' then [] :: splitOnSlash cs
    else
      match splitOnSlash cs with
      | [] => [[c]]
      | s :: rest => (c :: s) :: rest

/-- One step of the segment normalization of path.posix.normalize: skip
empty and dot segments; a dot-dot segment pops the previous real segment,
and survives only at the front of a relative path. The accumulator is the
reversed segment stack. -/
def normStep (allowAboveRoot : Bool) (acc : List (List Char)) (seg : List Char) :
    List (List Char) :=
  if seg = [] ∨ seg = ['.'] then acc
  else if seg = ['.', '.'] then
    match acc with
    | [] => if allowAboveRoot then [['.', '.']] else []
    | top :: rest =>
      if top ≠ ['.', '.'] then rest
      else if allowAboveRoot then ['.', '.'] :: top :: rest
      else top :: rest
  else seg :: acc

/-- Interleave / between segments and flatten. -/
def joinSegs : List (List Char) → List Char
  | [] => []
  | [s] => s
  | s :: rest => s ++ '/' :: joinSegs rest

/-- path.posix.normalize on a character list: record whether the path is
absolute and whether it carries a trailing separator, normalize the
segments, then reassemble. -/
def posixNormalizeChars (cs : List Char) : List Char :=
  if cs = [] then ['.']
  else
    let isAbs := cs.head? = some '/'
    let trail := cs.getLast? = some '/'
    let segs := (((splitOnSlash cs).foldl (normStep (!isAbs)) []).reverse)
    let body := joinSegs segs
    if body = [] then
      if isAbs then ['/'] else if trail then ['.', '/'] else ['.']
    else
      (if isAbs then '/' :: body else body) ++ (if trail then ['/'] else [])

/-- path.join of the platform the external tool runs on, in its posix
form: drop empty arguments, join the rest with /, and normalize; with no
non-empty argument the result is the dot path. -/
def pathJoin (parts : List String) : String :=
  let pieces := (parts.map String.data).filter (fun p => p ≠ [])
  match pieces with
  | [] => "."
  | _ => String.mk (posixNormalizeChars (joinSegs pieces))

/-- The mocha options of the returned record. -/
structure MochaSettings : Type where
  enableTimeouts : Bool
  before_timeout : Nat
deriving DecidableEq

/-- The optimizer block of the solc settings. -/
structure OptimizerSettings : Type where
  enabled : Bool
  runs : Nat
deriving DecidableEq

/-- The settings block of the solc compiler entry. -/
structure SolcSettings : Type where
  optimizer : OptimizerSettings
deriving DecidableEq

/-- The solc compiler entry. -/
structure SolcConfig : Type where
  version : String
  settings : SolcSettings
deriving DecidableEq

/-- The compilers block of the returned record. -/
structure Compilers : Type where
  solc : SolcConfig
deriving DecidableEq

/-- The record getTruffleConfig returns. -/
structure TruffleConfigRecord : Type where
  networks : Networks
  plugins : List String
  mocha : MochaSettings
  compilers : Compilers
  migrations_directory : String
  contracts_directory : String
  contracts_build_directory : String

/-- getTruffleConfig(truffleContextDir = "./"): assembles the configuration
record around the module-level networks registry, which is determined by
the external PublicNetworks table and the environment. -/
def getTruffleConfig (publicNets : List (String × String)) (env : Env)
    (truffleContextDir : String) : TruffleConfigRecord :=
  { networks := registerNetworks publicNets env
    plugins := ["solidity-coverage"]
    mocha := { enableTimeouts := false, before_timeout := 1800000 }
    compilers :=
      { solc :=
        { version := "0.6.12"
          settings := { optimizer := { enabled := true, runs := 199 } } } }
    migrations_directory := pathJoin [truffleContextDir, "migrations"]
    contracts_directory := pathJoin [truffleContextDir, "contracts"]
    contracts_build_directory := pathJoin [truffleContextDir, "build/contracts"] }

/-- Loading the module and calling getTruffleConfig: the module body first
evaluates the credential consts (which cannot throw), then the nodeUrl
const (whose template literal reads the unbound identifier name), and only
then registers the networks and exposes getTruffleConfig. -/
def buildConfig (publicNets : List (String × String)) (env : Env)
    (truffleContextDir : String) : Except JsError TruffleConfigRecord :=
  match nodeUrl env with
  | Except.ok _ => Except.ok (getTruffleConfig publicNets env truffleContextDir)
  | Except.error e => Except.error e

/-- A sample shape for the external PublicNetworks table, used to
instantiate universally quantified theorems at a concrete input. -/
def samplePublicNetworks : List (String × String) :=
  [("1", "mainnet"), ("42", "kovan")]

/-- The five key suffixes used by addPublicNetwork. -/
def publicSuffixes : List String :=
  ["_gckms", "_privatekey", "_mnemonic", "_ledger", "_ledger_legacy"]

/-- Appending to a common prefix is injective on the suffix. -/
theorem append_cancel_left_iff (nm s t : String) : nm ++ s = nm ++ t ↔ s = t := by
  constructor
  · intro h
    have hd := congrArg String.data h
    rw [String.data_append, String.data_append] at hd
    exact String.ext (List.append_cancel_left hd)
  · intro h
    rw [h]

/-- C4: when MNEMONIC, PRIVATE_KEY and INFURA_API_KEY are all unset, the
resolved mnemonic, private key and API key are exactly the three fallback
literals. -/
theorem credentials_fallback_literals (env : Env)
    (h1 : env "MNEMONIC" = none) (h2 : env "PRIVATE_KEY" = none)
    (h3 : env "INFURA_API_KEY" = none) :
    mnemonic env = fallbackMnemonic
    ∧ privateKey env = fallbackPrivateKey
    ∧ infuraApiKey env = fallbackInfuraApiKey := by
  refine ⟨?_, ?_, ?_⟩ <;>
    simp [mnemonic, privateKey, infuraApiKey, envFlag, h1, h2, h3]

/-- Witness for C4 at the empty environment. -/
theorem credentials_fallback_literals_witness :
    mnemonic emptyEnv = fallbackMnemonic
    ∧ privateKey emptyEnv = fallbackPrivateKey
    ∧ infuraApiKey emptyEnv = fallbackInfuraApiKey :=
  credentials_fallback_literals emptyEnv rfl rfl rfl

/-- C7: the compiler settings of the returned record are the constant
solc 0.6.12 with the optimizer enabled at 199 runs, for every external
network table, every environment and every context directory. -/
theorem compilers_constant (publicNets : List (String × String)) (env : Env)
    (dir : String) :
    (getTruffleConfig publicNets env dir).compilers =
      { solc :=
        { version := "0.6.12"
          settings := { optimizer := { enabled := true, runs := 199 } } } } :=
  rfl

/-- C6 counterexample: at context directory dot-slash the three directory
fields are not the dot-slash-prefixed paths the claim states, because
path.join normalizes the leading dot segment away. -/
theorem build_dot_directories_cex :
    ¬ ((getTruffleConfig samplePublicNetworks emptyEnv "./").migrations_directory
          = "./migrations"
       ∧ (getTruffleConfig samplePublicNetworks emptyEnv "./").contracts_directory
          = "./contracts"
       ∧ (getTruffleConfig samplePublicNetworks emptyEnv "./").contracts_build_directory
          = "./build/contracts") := by
  intro h
  exact absurd h.1 (by decide)

/-- C6 amended: at context directory dot-slash the directory fields equal
the normalized paths migrations, contracts and build/contracts, for every
external network table and environment. -/
theorem build_dot_directories (publicNets : List (String × String)) (env : Env) :
    (getTruffleConfig publicNets env "./").migrations_directory = "migrations"
    ∧ (getTruffleConfig publicNets env "./").contracts_directory = "contracts"
    ∧ (getTruffleConfig publicNets env "./").contracts_build_directory
        = "build/contracts" :=
  ⟨rfl, rfl, rfl⟩

/-- C5: with no CUSTOM_NODE_URL set, evaluating the module throws a
ReferenceError while computing nodeUrl, because the template literal reads
the bare identifier name, which is bound neither in module scope nor by
Node.js; building the configuration therefore fails before any provider
factory is invoked, contradicting the claim that nothing raises. -/
theorem buildConfig_reference_error :
    buildConfig samplePublicNetworks emptyEnv "./" =
      Except.error (JsError.referenceError "name") :=
  rfl

/-- Environment giving KEY_OFFSET the value -1, for the C9 counterexample. -/
def negOffsetEnv : Env := fun k => if k = "KEY_OFFSET" then some "-1" else none

/-- C9 counterexample: credential resolution does not always yield a
keyOffset that is a nonnegative integer together with a numKeys that is at
least 1; setting KEY_OFFSET to -1 yields keyOffset -1. -/
theorem keyOffset_numKeys_cex :
    ¬ (∀ env : Env, ∃ i : Int, keyOffset env = some i ∧ 0 ≤ i ∧
        ∃ j : Int, numKeys env = some j ∧ 1 ≤ j) := by
  intro h
  obtain ⟨i, hi, hnn, -⟩ := h negOffsetEnv
  have hK : keyOffset negOffsetEnv = some (-1 : Int) := rfl
  rw [hK] at hi
  have : (-1 : Int) = i := Option.some.inj hi
  omega

/-- C9 amended: when KEY_OFFSET and NUM_KEYS are unset or empty the
defaults 0 and 2 satisfy the stated bounds; when either is set non-empty
the resolved value is parseInt of the raw string with no validation, so it
may be negative or NaN. -/
theorem keyOffset_numKeys_amended (env : Env) :
    (envFlag env "KEY_OFFSET" = none → keyOffset env = some 0 ∧ (0 : Int) ≤ 0)
    ∧ (envFlag env "NUM_KEYS" = none → numKeys env = some 2 ∧ (1 : Int) ≤ 2)
    ∧ (∀ v, envFlag env "KEY_OFFSET" = some v → keyOffset env = jsParseInt v)
    ∧ (∀ v, envFlag env "NUM_KEYS" = some v → numKeys env = jsParseInt v) := by
  refine ⟨fun h => ?_, fun h => ?_, fun v h => ?_, fun v h => ?_⟩ <;>
    simp [keyOffset, numKeys, h]

/-- Witness for the amended C9 at the empty environment. -/
theorem keyOffset_numKeys_amended_witness :
    keyOffset emptyEnv = some 0 ∧ (0 : Int) ≤ 0 :=
  (keyOffset_numKeys_amended emptyEnv).1 rfl

/-- C10: presence, not non-emptiness, drives the LOCALHOST and LOCALPORT
overrides: with both present but empty every local entry gets empty host
and port strings, while empty MNEMONIC, PRIVATE_KEY and INFURA_API_KEY are
treated as absent and resolve to the fallback literals. -/
theorem env_presence_vs_truthiness (env : Env) (nets : Networks) (nm : String)
    (ov : JSObj)
    (hH : env "LOCALHOST" = some "") (hP : env "LOCALPORT" = some "")
    (hM : env "MNEMONIC" = some "") (hK : env "PRIVATE_KEY" = some "")
    (hI : env "INFURA_API_KEY" = some "") :
    (addLocalNetwork env nets nm ov) nm = some (localEntry env ov)
    ∧ localEntry env ov "host" = some (JSValue.str "")
    ∧ localEntry env ov "port" = some (JSValue.str "")
    ∧ mnemonic env = fallbackMnemonic
    ∧ privateKey env = fallbackPrivateKey
    ∧ infuraApiKey env = fallbackInfuraApiKey := by
  refine ⟨by simp [addLocalNetwork], ?_, ?_, ?_, ?_, ?_⟩ <;>
    simp [localEntry, setProp, hH, hP, hM, hK, hI,
      mnemonic, privateKey, infuraApiKey, envFlag]

/-- Environment for the C10 witness: the five variables set to the empty
string. -/
def emptyStringsEnv : Env := fun k =>
  if k = "LOCALHOST" ∨ k = "LOCALPORT" ∨ k = "MNEMONIC" ∨ k = "PRIVATE_KEY"
      ∨ k = "INFURA_API_KEY" then
    some ""
  else none

/-- Witness for C10 at a concrete environment, registry and override. -/
theorem env_presence_vs_truthiness_witness :
    (addLocalNetwork emptyStringsEnv emptyNetworks "develop" emptyObj) "develop"
        = some (localEntry emptyStringsEnv emptyObj)
    ∧ localEntry emptyStringsEnv emptyObj "host" = some (JSValue.str "")
    ∧ localEntry emptyStringsEnv emptyObj "port" = some (JSValue.str "")
    ∧ mnemonic emptyStringsEnv = fallbackMnemonic
    ∧ privateKey emptyStringsEnv = fallbackPrivateKey
    ∧ infuraApiKey emptyStringsEnv = fallbackInfuraApiKey :=
  env_presence_vs_truthiness emptyStringsEnv emptyNetworks "develop" emptyObj
    rfl rfl rfl rfl rfl

/-- Environment giving LOCALPORT the value 9999, for C8. -/
def localport9999Env : Env := fun k => if k = "LOCALPORT" then some "9999" else none

/-- C8 counterexample: with LOCALPORT set to 9999 and no caller override,
the develop entry's port is not the number 9999; environment values are
strings, so the port becomes the string 9999. -/
theorem develop_port_cex :
    netProp (registerNetworks samplePublicNetworks localport9999Env) "develop" "port"
      ≠ some (JSValue.num 9999) := by
  decide

/-- C8 amended: with LOCALPORT set to 9999 and no caller override, the
develop entry's port equals the raw environment string 9999, for every
external network table. -/
theorem develop_port_string (publicNets : List (String × String)) (env : Env)
    (h : env "LOCALPORT" = some "9999") :
    netProp (registerNetworks publicNets env) "develop" "port"
      = some (JSValue.str "9999") := by
  rcases hH : env "LOCALHOST" with - | v <;>
    simp [netProp, registerNetworks, addLocalNetwork, localEntry, setProp, h, hH]

/-- Witness for the amended C8 at a concrete environment and table. -/
theorem develop_port_string_witness :
    netProp (registerNetworks samplePublicNetworks localport9999Env) "develop" "port"
      = some (JSValue.str "9999") :=
  develop_port_string samplePublicNetworks localport9999Env rfl

/-- C3: the stored local entry is the spread merge of the defaults with the
caller overrides, overrides winning on collision; a present LOCALHOST or
LOCALPORT then overrides host or port with the raw environment string,
beating both defaults and caller overrides; every other field is untouched
by the environment; other registry keys are untouched. -/
theorem addLocalNetwork_merge_precedence (env : Env) (nets : Networks)
    (nm : String) (ov : JSObj) :
    (addLocalNetwork env nets nm ov) nm = some (localEntry env ov)
    ∧ (localEntry env ov "host" =
        match env "LOCALHOST" with
        | some v => some (JSValue.str v)
        | none =>
          match ov "host" with
          | some v => some v
          | none => some (JSValue.str "127.0.0.1"))
    ∧ (localEntry env ov "port" =
        match env "LOCALPORT" with
        | some v => some (JSValue.str v)
        | none =>
          match ov "port" with
          | some v => some v
          | none => some (JSValue.num 9545))
    ∧ (∀ k, k ≠ "host" → k ≠ "port" →
        localEntry env ov k =
          match ov k with
          | some v => some v
          | none => localDefaultOptions k)
    ∧ localDefaultOptions "network_id" = some (JSValue.str "*")
    ∧ localDefaultOptions "gas" = some JSValue.undef
    ∧ (∀ k, k ≠ nm → (addLocalNetwork env nets nm ov) k = nets k) := by
  refine ⟨by simp [addLocalNetwork], ?_, ?_, ?_, by decide, by decide, ?_⟩
  · rcases hP : env "LOCALPORT" with - | p <;> rcases hH : env "LOCALHOST" with - | v <;>
      cases hov : ov "host" <;>
      simp [localEntry, setProp, spreadMerge, localDefaultOptions, hP, hH, hov]
  · rcases hP : env "LOCALPORT" with - | p <;> rcases hH : env "LOCALHOST" with - | v <;>
      cases hov : ov "port" <;>
      simp [localEntry, setProp, spreadMerge, localDefaultOptions, hP, hH, hov]
  · intro k hk1 hk2
    rcases hP : env "LOCALPORT" with - | p <;> rcases hH : env "LOCALHOST" with - | v <;>
      cases hov : ov k <;>
      simp [localEntry, setProp, spreadMerge, hP, hH, hov, hk1, hk2]
  · intro k hk
    simp [addLocalNetwork, hk]

/-- Caller override giving port the number 1, for the C3 witness. -/
def ovPort1 : JSObj := fun k => if k = "port" then some (JSValue.num 1) else none

/-- Witness for C3 at a concrete environment, registry and override: the
caller override beats the port default and the gas default survives. -/
theorem addLocalNetwork_merge_precedence_witness :
    localEntry emptyEnv ovPort1 "gas" = some JSValue.undef
    ∧ localEntry emptyEnv ovPort1 "port" = some (JSValue.num 1) := by
  have h := addLocalNetwork_merge_precedence emptyEnv emptyNetworks "test" ovPort1
  exact ⟨by simpa [ovPort1, localDefaultOptions] using
            h.2.2.2.1 "gas" (by decide) (by decide),
         by simpa [ovPort1] using h.2.2.1⟩

/-- C2: addPublicNetwork binds exactly the five suffixed keys, which are
pairwise distinct for every name, to entries that all extend the same base
options object, whose fields are the stated timeout, network id, undefined
gas and 20 gwei gas price, and that differ only in the provider factory,
the five factories being pairwise distinct; every other registry key is
untouched. -/
theorem addPublicNetwork_five_entries (nets : Networks) (nm : String)
    (nid : JSValue) :
    (addPublicNetwork nets nm nid) (nm ++ "_gckms")
        = some (withProvider (publicBaseOptions nid) JSValue.fnGckms)
    ∧ (addPublicNetwork nets nm nid) (nm ++ "_privatekey")
        = some (withProvider (publicBaseOptions nid) JSValue.fnPrivatekey)
    ∧ (addPublicNetwork nets nm nid) (nm ++ "_mnemonic")
        = some (withProvider (publicBaseOptions nid) JSValue.fnMnemonic)
    ∧ (addPublicNetwork nets nm nid) (nm ++ "_ledger")
        = some (withProvider (publicBaseOptions nid) (JSValue.fnLedger nid))
    ∧ (addPublicNetwork nets nm nid) (nm ++ "_ledger_legacy")
        = some (withProvider (publicBaseOptions nid) (JSValue.fnLedgerLegacy nid))
    ∧ (∀ s t, s ∈ publicSuffixes → t ∈ publicSuffixes → s ≠ t →
        nm ++ s ≠ nm ++ t)
    ∧ (∀ k, k ≠ nm ++ "_gckms" → k ≠ nm ++ "_privatekey" →
        k ≠ nm ++ "_mnemonic" → k ≠ nm ++ "_ledger" → k ≠ nm ++ "_ledger_legacy" →
        (addPublicNetwork nets nm nid) k = nets k)
    ∧ (∀ f : JSValue, ∀ k, k ≠ "provider" →
        withProvider (publicBaseOptions nid) f k = publicBaseOptions nid k)
    ∧ (∀ f : JSValue, withProvider (publicBaseOptions nid) f "provider" = some f)
    ∧ publicBaseOptions nid "networkCheckTimeout" = some (JSValue.num 10000)
    ∧ publicBaseOptions nid "network_id" = some nid
    ∧ publicBaseOptions nid "gas" = some JSValue.undef
    ∧ publicBaseOptions nid "gasPrice" = some (JSValue.num 20000000000)
    ∧ (JSValue.fnGckms ≠ JSValue.fnPrivatekey
       ∧ JSValue.fnGckms ≠ JSValue.fnMnemonic
       ∧ JSValue.fnGckms ≠ JSValue.fnLedger nid
       ∧ JSValue.fnGckms ≠ JSValue.fnLedgerLegacy nid
       ∧ JSValue.fnPrivatekey ≠ JSValue.fnMnemonic
       ∧ JSValue.fnPrivatekey ≠ JSValue.fnLedger nid
       ∧ JSValue.fnPrivatekey ≠ JSValue.fnLedgerLegacy nid
       ∧ JSValue.fnMnemonic ≠ JSValue.fnLedger nid
       ∧ JSValue.fnMnemonic ≠ JSValue.fnLedgerLegacy nid
       ∧ JSValue.fnLedger nid ≠ JSValue.fnLedgerLegacy nid) := by
  refine ⟨?_, ?_, ?_, ?_, ?_, ?_, ?_, ?_, ?_, rfl, rfl, rfl, rfl, ?_⟩
  · simp [addPublicNetwork]
  · simp [addPublicNetwork, append_cancel_left_iff]
  · simp [addPublicNetwork, append_cancel_left_iff]
  · simp [addPublicNetwork, append_cancel_left_iff]
  · simp [addPublicNetwork, append_cancel_left_iff]
  · intro s t _ _ hst h
    exact hst ((append_cancel_left_iff nm s t).mp h)
  · intro k h1 h2 h3 h4 h5
    simp [addPublicNetwork, h1, h2, h3, h4, h5]
  · intro f k hk
    simp [withProvider, hk]
  · intro f
    simp [withProvider]
  · refine ⟨?_, ?_, ?_, ?_, ?_, ?_, ?_, ?_, ?_, ?_⟩ <;> simp

/-- Witness for C2 at a concrete registry, name and id: the gckms entry is
bound and an unrelated key stays unbound. -/
theorem addPublicNetwork_five_entries_witness :
    (addPublicNetwork emptyNetworks "mainnet" (JSValue.str "1")) ("mainnet" ++ "_gckms")
        = some (withProvider (publicBaseOptions (JSValue.str "1")) JSValue.fnGckms)
    ∧ (addPublicNetwork emptyNetworks "mainnet" (JSValue.str "1")) "develop" = none := by
  have h := addPublicNetwork_five_entries emptyNetworks "mainnet" (JSValue.str "1")
  refine ⟨h.1, ?_⟩
  have hf := h.2.2.2.2.2.2.1 "develop"
    (by decide) (by decide) (by decide) (by decide) (by decide)
  simpa [emptyNetworks] using hf

/-- C1: when the singleton slot is empty, a factory invocation returns the
provider its mechanism constructs at the given endpoint and stores it in
the slot; any later invocation of any factory, for any network, mechanism
and endpoint, returns that same stored instance and constructs nothing. -/
theorem singleton_provider_shared (env : Env) (f g : JSValue) (epf epg : String)
    (p1 : Provider) (hg : isFactoryFn g = true)
    (h1 : mkProvider env f epf = some p1) :
    invokeFactory env f epf none = some (p1, some p1)
    ∧ invokeFactory env g epg (some p1) = some (p1, some p1) := by
  constructor
  · simp [invokeFactory, h1]
  · simp [invokeFactory, hg]

/-- Witness for C1: a gckms factory invoked first, then a mnemonic factory
at a different endpoint, both returning the gckms-built instance. -/
theorem singleton_provider_shared_witness :
    invokeFactory emptyEnv JSValue.fnGckms "urlA" none
        = some (Provider.managedSecret "urlA", some (Provider.managedSecret "urlA"))
    ∧ invokeFactory emptyEnv JSValue.fnMnemonic "urlB"
          (some (Provider.managedSecret "urlA"))
        = some (Provider.managedSecret "urlA", some (Provider.managedSecret "urlA")) :=
  singleton_provider_shared emptyEnv JSValue.fnGckms JSValue.fnMnemonic "urlA" "urlB"
    (Provider.managedSecret "urlA") rfl rfl

end TruffleConfig
